import Mathlib

/-!
Verification of the payment-agent reference program
(`src/reference/solution.py`): a shallow embedding of the test-card
table, the mock payment-gateway HTTP handler, the two SWAIG tool
handlers (`handle_consent`, `process_payment`) and the agent
constructor, with theorems settling the specification's claims.

External nondeterminism is made explicit as parameters: the random
`uuid.uuid4().hex` string is a list of characters supplied to the
gateway, and the server's own base URL (`self.get_full_url()`) is a
string supplied to `process_payment`.
-/

namespace PaymentLab

/-- The static test-card table `TEST_CARDS`, an association from
card-number string to outcome tag. -/
def TEST_CARDS : List (String × String) :=
  [("4111111111111111", "success"),
   ("4000000000000002", "declined"),
   ("5555555555554444", "success")]

/-- The JSON body of a request to the `/payment` endpoint.  Each field
is optional, mirroring `data.get(key, default)` on a parsed JSON dict. -/
structure GatewayRequest where
  payment_card_number : Option String
  charge_amount : Option String
deriving DecidableEq, Repr

/-- The JSON body of the gateway's response. -/
structure GatewayResponse where
  charge_id : Option String
  error_code : Option String
  error_message : Option String
deriving DecidableEq, Repr

/-- Python `s[-4:]`: the last four characters of a string. -/
def lastFour (s : String) : String :=
  String.mk (s.toList.reverse.take 4).reverse

/-- The mock payment gateway handler (`payment_gateway`).

State passing is explicit: the handler receives the current test-card
table (module state) and returns the table it leaves behind, together
with the diagnostic log line it prints and the JSON response.
`uuidHex` models the random `uuid.uuid4().hex` string. -/
def payment_gateway (test_cards : List (String × String))
    (uuidHex : List Char) (data : GatewayRequest) :
    List (String × String) × String × GatewayResponse :=
  let card_number := data.payment_card_number.getD ""
  let charge_amount := data.charge_amount.getD "0.00"
  let last_four := if card_number.length ≥ 4 then lastFour card_number else "****"
  let logLine := "Payment: card=****" ++ last_four ++ ", amount=$" ++ charge_amount
  let scenario := (test_cards.lookup card_number).getD "success"
  if scenario = "success" then
    (test_cards, logLine,
      { charge_id := some ("ch_" ++ String.mk (uuidHex.take 12))
        error_code := none
        error_message := none })
  else
    (test_cards, logLine,
      { charge_id := none
        error_code := some "card_declined"
        error_message := some "Your card was declined" })

/-- The response component of the gateway's result. -/
def gatewayResponse (test_cards : List (String × String))
    (uuidHex : List Char) (data : GatewayRequest) : GatewayResponse :=
  (payment_gateway test_cards uuidHex data).2.2

/-- An action attached to a `SwaigFunctionResult`. -/
inductive Action where
  | record_call (control_id : String) (stereo : Bool) (format : String)
  | pay (payment_connector_url : String) (charge_amount : String)
      (input_method : String) (security_code : Bool) (postal_code : Bool)
      (max_attempts : Nat) (ai_response : String)
deriving DecidableEq, Repr

/-- The result object a tool handler returns to the orchestrator:
spoken text, the post-process flag, accumulated global-data updates
and accumulated actions. -/
structure SwaigFunctionResult where
  response : String
  post_process : Bool
  global_data : List (String × Bool)
  actions : List Action
deriving DecidableEq, Repr

/-- `SwaigFunctionResult(text)` with an explicit post-process flag. -/
def SwaigFunctionResult.new (text : String) (pp : Bool) : SwaigFunctionResult :=
  { response := text, post_process := pp, global_data := [], actions := [] }

/-- `.update_global_data(d)`: record the key/value updates. -/
def SwaigFunctionResult.update_global_data (r : SwaigFunctionResult)
    (d : List (String × Bool)) : SwaigFunctionResult :=
  { r with global_data := r.global_data ++ d }

/-- `.record_call(control_id=, stereo=, format=)`: append the action. -/
def SwaigFunctionResult.record_call (r : SwaigFunctionResult)
    (control_id : String) (stereo : Bool) (fmt : String) : SwaigFunctionResult :=
  { r with actions := r.actions ++ [Action.record_call control_id stereo fmt] }

/-- `.pay(...)`: append the payment-collection directive. -/
def SwaigFunctionResult.pay (r : SwaigFunctionResult)
    (payment_connector_url charge_amount input_method : String)
    (security_code postal_code : Bool) (max_attempts : Nat)
    (ai_response : String) : SwaigFunctionResult :=
  { r with actions := r.actions ++
      [Action.pay payment_connector_url charge_amount input_method
        security_code postal_code max_attempts ai_response] }

/-- The `handle_consent` tool handler.  `args` is the caller-supplied
argument dictionary; `args.get("consent_given", "")` becomes a lookup
with default `""`. -/
def handle_consent (args : List (String × String)) : SwaigFunctionResult :=
  let consent_given := (args.lookup "consent_given").getD ""
  if consent_given = "yes" then
    SwaigFunctionResult.new
        "Thank you for your consent. How can I help you today?" false
      |>.update_global_data [("recording_consent", true)]
      |>.record_call "main" true "mp3"
  else
    SwaigFunctionResult.new
        ("No problem, this call will not be recorded. " ++
         "How can I help you today?") false
      |>.update_global_data [("recording_consent", false)]

/-- Python `s.rstrip('/')`: drop every trailing slash. -/
def rstripSlash (s : String) : String :=
  String.mk (s.toList.reverse.dropWhile (fun c => c = '/')).reverse

/-- The `process_payment` tool handler.  `full_url` models the value
of `self.get_full_url()`, the server's auto-detected public URL. -/
def process_payment (args : List (String × String)) (full_url : String) :
    SwaigFunctionResult :=
  let amount := (args.lookup "amount").getD "0.00"
  let base_url := rstripSlash full_url
  let payment_url := base_url ++ "/payment"
  SwaigFunctionResult.new
      ("I'll collect your payment securely. " ++
       "Please enter your card number using your phone keypad.") true
    |>.pay payment_url amount "dtmf" true true 3
      ("The payment result is ${pay_result}. " ++
       "If successful, confirm the payment. " ++
       "If failed, apologize and offer to try another card.")

/-- A configuration parameter value passed to `set_params`. -/
inductive ParamValue where
  | bool (b : Bool)
  | str (s : String)
deriving DecidableEq, Repr

/-- The agent configuration state built up by `PaymentAgent.__init__`. -/
structure AgentState where
  name : String
  params : List (String × ParamValue)
  prompt_sections : List (String × List String)
  languages : List (String × String × String)
deriving DecidableEq, Repr

/-- `AgentBase.__init__(name=...)`: fresh agent configuration. -/
def AgentBase.new (name : String) : AgentState :=
  { name := name, params := [], prompt_sections := [], languages := [] }

/-- `self.set_params(...)`. -/
def AgentState.set_params (a : AgentState)
    (ps : List (String × ParamValue)) : AgentState :=
  { a with params := ps }

/-- `self.prompt_add_section(title, ...)`, body text or bullets as a
list of strings. -/
def AgentState.prompt_add_section (a : AgentState) (title : String)
    (body : List String) : AgentState :=
  { a with prompt_sections := a.prompt_sections ++ [(title, body)] }

/-- `self.add_language(...)`. -/
def AgentState.add_language (a : AgentState) (name code voice : String) :
    AgentState :=
  { a with languages := a.languages ++ [(name, code, voice)] }

/-- `PaymentAgent.__init__`: the agent configuration after the
constructor runs. -/
def PaymentAgent.init : AgentState :=
  (AgentBase.new "payment-agent"
    |>.set_params
      [("record_call", ParamValue.bool true),
       ("record_format", ParamValue.str "mp3"),
       ("record_stereo", ParamValue.bool true)]
    |>.prompt_add_section "Role"
      ["You process payments for customers. Always disclose recording at call start."]
    |>.prompt_add_section "Recording Policy"
      ["Disclose recording at call start",
       "Use process_payment function for card collection",
       "Card data is collected securely via IVR",
       "Never ask customer to speak card numbers"]
    |>.add_language "English" "en-US" "rime.spore")

/-- Lowercase-hex digit, the alphabet of `uuid.uuid4().hex`. -/
def isHexDigitChar (c : Char) : Bool :=
  c.isDigit || ('a' ≤ c && c ≤ 'f')

/-- The success shape of a gateway response: non-null charge
identifier and both error fields null. -/
def isSuccessShape (r : GatewayResponse) : Prop :=
  r.charge_id ≠ none ∧ r.error_code = none ∧ r.error_message = none

/-- The decline shape of a gateway response: null charge identifier
and both error fields non-null. -/
def isDeclineShape (r : GatewayResponse) : Prop :=
  r.charge_id = none ∧ r.error_code ≠ none ∧ r.error_message ≠ none

/-- Claim C1: for every request whose `payment_card_number` is a string
absent from the test-card table, the gateway returns a success
response: non-null `charge_id`, null `error_code` and `error_message`
(default-allow policy, exact-match lookup). -/
theorem C1_unknown_card_success (uuidHex : List Char) (amt : Option String)
    (card : String) (h : TEST_CARDS.lookup card = none) :
    (gatewayResponse TEST_CARDS uuidHex ⟨some card, amt⟩).charge_id ≠ none ∧
    (gatewayResponse TEST_CARDS uuidHex ⟨some card, amt⟩).error_code = none ∧
    (gatewayResponse TEST_CARDS uuidHex ⟨some card, amt⟩).error_message = none := by
  simp [gatewayResponse, payment_gateway, h]

/-- Witness for C1 at the concrete unknown card `"4242424242424242"`. -/
theorem C1_unknown_card_success_witness :
    TEST_CARDS.lookup "4242424242424242" = none ∧
    ((gatewayResponse TEST_CARDS [] ⟨some "4242424242424242", none⟩).charge_id ≠ none ∧
     (gatewayResponse TEST_CARDS [] ⟨some "4242424242424242", none⟩).error_code = none ∧
     (gatewayResponse TEST_CARDS [] ⟨some "4242424242424242", none⟩).error_message = none) :=
  ⟨by decide, C1_unknown_card_success [] none "4242424242424242" (by decide)⟩

/-- Claim C2: for a request with `payment_card_number` exactly
`"4000000000000002"`, the gateway returns a null `charge_id`,
`error_code` `"card_declined"` and the fixed message
`"Your card was declined"`, for every uuid draw and every amount. -/
theorem C2_declined_card (uuidHex : List Char) (amt : Option String) :
    gatewayResponse TEST_CARDS uuidHex ⟨some "4000000000000002", amt⟩ =
      { charge_id := none
        error_code := some "card_declined"
        error_message := some "Your card was declined" } := rfl

/-- Claim C3: for every card mapped to `"success"` in the test-card
table, the gateway returns a charge identifier of the form `"ch_"`
followed by exactly 12 lowercase-hex characters (given that the uuid
hex string has 32 hex characters, as `uuid.uuid4().hex` does), with
both error fields null. -/
theorem C3_success_card_charge_id (uuidHex : List Char) (amt : Option String)
    (card : String) (hcard : TEST_CARDS.lookup card = some "success")
    (hlen : uuidHex.length = 32)
    (hhex : ∀ c ∈ uuidHex, isHexDigitChar c = true) :
    ∃ t : List Char,
      (gatewayResponse TEST_CARDS uuidHex ⟨some card, amt⟩).charge_id =
        some ("ch_" ++ String.mk t) ∧
      t.length = 12 ∧ (∀ c ∈ t, isHexDigitChar c = true) ∧
      (gatewayResponse TEST_CARDS uuidHex ⟨some card, amt⟩).error_code = none ∧
      (gatewayResponse TEST_CARDS uuidHex ⟨some card, amt⟩).error_message = none := by
  refine ⟨uuidHex.take 12, ?_, ?_, ?_, ?_, ?_⟩
  · simp [gatewayResponse, payment_gateway, hcard]
  · simp [List.length_take, hlen]
  · intro c hc
    exact hhex c (List.take_subset 12 uuidHex hc)
  · simp [gatewayResponse, payment_gateway, hcard]
  · simp [gatewayResponse, payment_gateway, hcard]

/-- Witness for C3 at card `"4111111111111111"` and a concrete
32-character hex draw. -/
theorem C3_success_card_charge_id_witness :
    TEST_CARDS.lookup "4111111111111111" = some "success" ∧
    ("0123456789abcdef0123456789abcdef".toList.length = 32) ∧
    (∀ c ∈ "0123456789abcdef0123456789abcdef".toList, isHexDigitChar c = true) ∧
    (∃ t : List Char,
      (gatewayResponse TEST_CARDS "0123456789abcdef0123456789abcdef".toList
        ⟨some "4111111111111111", some "49.99"⟩).charge_id =
        some ("ch_" ++ String.mk t) ∧
      t.length = 12 ∧ (∀ c ∈ t, isHexDigitChar c = true) ∧
      (gatewayResponse TEST_CARDS "0123456789abcdef0123456789abcdef".toList
        ⟨some "4111111111111111", some "49.99"⟩).error_code = none ∧
      (gatewayResponse TEST_CARDS "0123456789abcdef0123456789abcdef".toList
        ⟨some "4111111111111111", some "49.99"⟩).error_message = none) :=
  ⟨by decide, by decide, by decide,
    C3_success_card_charge_id "0123456789abcdef0123456789abcdef".toList
      (some "49.99") "4111111111111111" (by decide) (by decide) (by decide)⟩

/-- Claim C4: for every table, uuid draw and request, the gateway
response has exactly one of the two mutually exclusive shapes: success
(non-null `charge_id`, null errors) or decline (null `charge_id`,
non-null errors); no partial or mixed state occurs. -/
theorem C4_response_shape_dichotomy (test_cards : List (String × String))
    (uuidHex : List Char) (data : GatewayRequest) :
    (isSuccessShape (gatewayResponse test_cards uuidHex data) ∧
      ¬ isDeclineShape (gatewayResponse test_cards uuidHex data)) ∨
    (isDeclineShape (gatewayResponse test_cards uuidHex data) ∧
      ¬ isSuccessShape (gatewayResponse test_cards uuidHex data)) := by
  by_cases h :
      (test_cards.lookup (data.payment_card_number.getD "")).getD "success" = "success" <;>
    simp [gatewayResponse, payment_gateway, h, isSuccessShape, isDeclineShape]

/-- Claim C5: `handle_consent` with `consent_given = "yes"` records the
consent flag true and issues the stereo, named-control recording-enable
action; with any other (or absent) value it records the flag false and
issues no action at all. -/
theorem C5_consent_branches (args : List (String × String)) :
    (((args.lookup "consent_given").getD "" = "yes" →
      (handle_consent args).global_data = [("recording_consent", true)] ∧
      (handle_consent args).actions = [Action.record_call "main" true "mp3"]) ∧
     ((args.lookup "consent_given").getD "" ≠ "yes" →
      (handle_consent args).global_data = [("recording_consent", false)] ∧
      (handle_consent args).actions = [])) := by
  constructor
  · intro h
    simp [handle_consent, h, SwaigFunctionResult.new,
      SwaigFunctionResult.update_global_data, SwaigFunctionResult.record_call]
  · intro h
    simp [handle_consent, h, SwaigFunctionResult.new,
      SwaigFunctionResult.update_global_data]

/-- Witness for C5 on both branches: `"yes"` and an absent value. -/
theorem C5_consent_branches_witness :
    ((([("consent_given", "yes")] : List (String × String)).lookup
        "consent_given").getD "" = "yes" ∧
     (handle_consent [("consent_given", "yes")]).global_data =
        [("recording_consent", true)] ∧
     (handle_consent [("consent_given", "yes")]).actions =
        [Action.record_call "main" true "mp3"]) ∧
    ((([] : List (String × String)).lookup "consent_given").getD "" ≠ "yes" ∧
     (handle_consent []).global_data = [("recording_consent", false)] ∧
     (handle_consent []).actions = []) :=
  ⟨⟨by decide, (C5_consent_branches [("consent_given", "yes")]).1 (by decide)⟩,
   ⟨by decide, (C5_consent_branches []).2 (by decide)⟩⟩

/-- Claim C6: for every argument dictionary and server URL, the result
of `process_payment` contains exactly one payment-collection directive,
with attempt cap 3, DTMF input, security code and postal code required,
and callback URL equal to the server's own base address (trailing
slashes stripped) with `"/payment"` appended. -/
theorem C6_pay_directive (args : List (String × String)) (full_url : String) :
    (process_payment args full_url).actions =
      [Action.pay (rstripSlash full_url ++ "/payment")
        ((args.lookup "amount").getD "0.00") "dtmf" true true 3
        ("The payment result is ${pay_result}. " ++
         "If successful, confirm the payment. " ++
         "If failed, apologize and offer to try another card.")] := rfl

/-- Claim C7: missing fields never fail: an absent
`payment_card_number` behaves exactly as the empty string (and takes
the unknown-card success path), an absent `charge_amount` behaves
exactly as `"0.00"`, and `process_payment` with an absent amount
behaves exactly as amount `"0.00"`. -/
theorem C7_missing_field_defaults (uuidHex : List Char) (full_url : String) :
    payment_gateway TEST_CARDS uuidHex ⟨none, none⟩ =
      payment_gateway TEST_CARDS uuidHex ⟨some "", some "0.00"⟩ ∧
    (gatewayResponse TEST_CARDS uuidHex ⟨none, none⟩).charge_id ≠ none ∧
    (gatewayResponse TEST_CARDS uuidHex ⟨none, none⟩).error_code = none ∧
    (gatewayResponse TEST_CARDS uuidHex ⟨none, none⟩).error_message = none ∧
    process_payment [] full_url = process_payment [("amount", "0.00")] full_url := by
  have h : gatewayResponse TEST_CARDS uuidHex ⟨none, none⟩ =
      { charge_id := some ("ch_" ++ String.mk (uuidHex.take 12))
        error_code := none
        error_message := none } := rfl
  refine ⟨rfl, ?_, ?_, ?_, rfl⟩ <;> simp [h]

/-- Claim C8: the gateway handler is stateless: for every table, uuid
draw and request, the table it leaves behind is exactly the table it
was given — no entry is added, removed or modified. -/
theorem C8_gateway_stateless (test_cards : List (String × String))
    (uuidHex : List Char) (data : GatewayRequest) :
    (payment_gateway test_cards uuidHex data).1 = test_cards := by
  by_cases h :
      (test_cards.lookup (data.payment_card_number.getD "")).getD "success" = "success" <;>
    simp [payment_gateway, h]

/-- Claim C9: the response is independent of the charge amount: with
the same card and uuid draw the responses are identical for any two
amounts; across different uuid draws the outcome shape still agrees,
and declines are the identical triple.  The amount reaches only the
diagnostic log line. -/
theorem C9_amount_noninterference (uuidHex1 uuidHex2 : List Char)
    (card amt1 amt2 : Option String) :
    gatewayResponse TEST_CARDS uuidHex1 ⟨card, amt1⟩ =
      gatewayResponse TEST_CARDS uuidHex1 ⟨card, amt2⟩ ∧
    (gatewayResponse TEST_CARDS uuidHex1 ⟨card, amt1⟩).charge_id.isSome =
      (gatewayResponse TEST_CARDS uuidHex2 ⟨card, amt2⟩).charge_id.isSome ∧
    ((gatewayResponse TEST_CARDS uuidHex1 ⟨card, amt1⟩).charge_id = none →
      gatewayResponse TEST_CARDS uuidHex1 ⟨card, amt1⟩ =
        gatewayResponse TEST_CARDS uuidHex2 ⟨card, amt2⟩) := by
  by_cases h :
      (TEST_CARDS.lookup (card.getD "")).getD "success" = "success" <;>
    simp [gatewayResponse, payment_gateway, h]

/-- Witness for C9 at the declined card, two amounts and two uuid
draws: the decline triples coincide. -/
theorem C9_amount_noninterference_witness :
    (gatewayResponse TEST_CARDS [] ⟨some "4000000000000002", some "1.00"⟩).charge_id
      = none ∧
    gatewayResponse TEST_CARDS [] ⟨some "4000000000000002", some "1.00"⟩ =
      gatewayResponse TEST_CARDS ['f'] ⟨some "4000000000000002", some "2.00"⟩ :=
  ⟨by decide,
    (C9_amount_noninterference [] ['f'] (some "4000000000000002")
      (some "1.00") (some "2.00")).2.2 (by decide)⟩

/-- Claim C10: constructing the agent enables recording
unconditionally at startup — `record_call` true, mp3 format, stereo —
before any consent is obtained, and the consent handler's non-"yes"
branch issues no action that could turn recording off. -/
theorem C10_recording_on_by_default (args : List (String × String)) :
    PaymentAgent.init.params.lookup "record_call" = some (ParamValue.bool true) ∧
    PaymentAgent.init.params.lookup "record_format" = some (ParamValue.str "mp3") ∧
    PaymentAgent.init.params.lookup "record_stereo" = some (ParamValue.bool true) ∧
    ((args.lookup "consent_given").getD "" ≠ "yes" →
      (handle_consent args).actions = []) := by
  refine ⟨by decide, by decide, by decide, fun h => ?_⟩
  simp [handle_consent, h, SwaigFunctionResult.new,
    SwaigFunctionResult.update_global_data]

/-- Witness for C10 at the `"no"` answer. -/
theorem C10_recording_on_by_default_witness :
    PaymentAgent.init.params.lookup "record_call" = some (ParamValue.bool true) ∧
    PaymentAgent.init.params.lookup "record_format" = some (ParamValue.str "mp3") ∧
    PaymentAgent.init.params.lookup "record_stereo" = some (ParamValue.bool true) ∧
    ((([("consent_given", "no")] : List (String × String)).lookup
        "consent_given").getD "" ≠ "yes" ∧
      (handle_consent [("consent_given", "no")]).actions = []) :=
  ⟨(C10_recording_on_by_default [("consent_given", "no")]).1,
   (C10_recording_on_by_default [("consent_given", "no")]).2.1,
   (C10_recording_on_by_default [("consent_given", "no")]).2.2.1,
   by decide,
   (C10_recording_on_by_default [("consent_given", "no")]).2.2.2 (by decide)⟩

end PaymentLab
